import Mathlib

/-!
Verification of the HBnB rental-listing backend (holbertonschool-hbnb).

The development shallowly embeds the domain-entity, repository and facade
layers of the source program:

- the in-memory repository (part3 app/persistence/repository.py,
  class InMemoryRepository) as association lists keyed by entity id;
- the entity constructors (User, Place, Amenity, Review) with their
  validation chains, in source order;
- the facade operations create_review, update_review, update_place,
  create_place, get_all_users, get_all_amenities, following the part3
  and part4 iterations of app/services/facade.py.

Python raise/except is modelled with Except String; a raise that occurs
before any mutation corresponds to an error value carrying no new state.
Python floats appearing only in order comparisons are modelled as
rationals; datetime.now is modelled as an external clock value passed in.
-/

namespace HBnB

/-! ### In-memory repository (part3 app/persistence/repository.py)

The backing store self dot _storage is a Python dict from entity id to
object; it is embedded as an association list with the dict operations. -/

/-- storage.get(obj_id): dictionary lookup, None when absent. -/
def repoGet (s : List (String × α)) (k : String) : Option α :=
  (s.find? (fun p => p.1 == k)).map (fun p => p.2)

/-- get_all(): list(storage.values()). -/
def repoGetAll (s : List (String × α)) : List α :=
  s.map (fun p => p.2)

/-- add(obj): storage[obj.id] = obj — overwrite in place when the key
exists, append otherwise (Python dicts keep insertion order). -/
def repoAdd (s : List (String × α)) (k : String) (v : α) : List (String × α) :=
  if s.any (fun p => p.1 == k) then
    s.map (fun p => if p.1 == k then (k, v) else p)
  else s ++ [(k, v)]

/-- delete(obj_id): del storage[obj_id] and return True when the key is
present, return False otherwise. -/
def repoDelete (s : List (String × α)) (k : String) : List (String × α) × Bool :=
  if s.any (fun p => p.1 == k) then (s.filter (fun p => p.1 != k), true)
  else (s, false)

/-- get_by_attribute(attr, value): linear scan over storage.values()
keeping the objects whose attribute (projected by f) equals value. -/
def repoGetByAttr (s : List (String × α)) (f : α → String) (v : String) : List α :=
  (s.map (fun p => p.2)).filter (fun o => f o == v)

/-- A storage table is well keyed when every entry is stored under the id
of the object it holds, which add guarantees (storage[obj.id] = obj). -/
def WellKeyed (idOf : α → String) (s : List (String × α)) : Prop :=
  ∀ p ∈ s, p.1 = idOf p.2

theorem repoGet_isSome_iff {α : Type} (s : List (String × α)) (k : String) :
    (repoGet s k).isSome = true ↔ ∃ p ∈ s, p.1 = k := by
  unfold repoGet
  rw [Option.isSome_map', List.find?_isSome]
  constructor
  · rintro ⟨p, hp, hb⟩
    exact ⟨p, hp, by simpa using hb⟩
  · rintro ⟨p, hp, hb⟩
    exact ⟨p, hp, by simpa using hb⟩

/-- Claim C7: for every well-keyed repository state and id, delete(id)
returns True exactly when an entity with that id is present; after a
delete, get(id) returns None and get_all() no longer contains any entity
with the deleted id. -/
theorem claim_C7 {α : Type} (idOf : α → String) (s : List (String × α)) (k : String)
    (hwf : WellKeyed idOf s) :
    ((repoDelete s k).2 = true ↔ repoGet s k ≠ none) ∧
    repoGet (repoDelete s k).1 k = none ∧
    ∀ o ∈ repoGetAll (repoDelete s k).1, idOf o ≠ k := by
  have hfilter : repoGet (s.filter (fun p => p.1 != k)) k = none := by
    unfold repoGet
    rw [Option.map_eq_none', List.find?_eq_none]
    intro p hp
    have := (List.mem_filter.mp hp).2
    simpa using this
  refine ⟨?_, ?_, ?_⟩
  · unfold repoDelete
    split
    · rename_i hany
      simp only [ne_eq, true_iff]
      intro hnone
      rcases List.any_eq_true.mp hany with ⟨p, hp, hb⟩
      have : (repoGet s k).isSome = true :=
        (repoGet_isSome_iff s k).mpr ⟨p, hp, by simpa using hb⟩
      rw [hnone] at this
      simp at this
    · rename_i hany
      have hnone : repoGet s k = none := by
        unfold repoGet
        rw [Option.map_eq_none', List.find?_eq_none]
        intro p hp hb
        exact hany (List.any_eq_true.mpr ⟨p, hp, hb⟩)
      simp [hnone]
  · unfold repoDelete
    split
    · exact hfilter
    · rename_i hany
      unfold repoGet
      rw [Option.map_eq_none', List.find?_eq_none]
      intro p hp hb
      exact hany (List.any_eq_true.mpr ⟨p, hp, hb⟩)
  · intro o ho
    unfold repoDelete at ho
    have hmem : o ∈ repoGetAll (s.filter (fun p => p.1 != k)) := by
      by_cases hany : s.any (fun p => p.1 == k)
      · simpa [hany] using ho
      · unfold repoGetAll at ho ⊢
        rw [if_neg hany] at ho
        rcases List.mem_map.mp ho with ⟨p, hp, rfl⟩
        refine List.mem_map.mpr ⟨p, List.mem_filter.mpr ⟨hp, ?_⟩, rfl⟩
        simp only [bne_iff_ne, ne_eq]
        intro hk
        exact hany (List.any_eq_true.mpr ⟨p, hp, by simpa using hk⟩)
    unfold repoGetAll at hmem
    rcases List.mem_map.mp hmem with ⟨p, hp, rfl⟩
    have hps := List.mem_filter.mp hp
    have hid := hwf p hps.1
    have hne : p.1 ≠ k := by simpa using hps.2
    rw [← hid]
    exact hne

/-- Witness for claim C7 at a concrete two-entry store. -/
theorem claim_C7_witness :
    ((repoDelete [("a", "a"), ("b", "b")] "a").2 = true ↔
      repoGet [("a", "a"), ("b", "b")] "a" ≠ none) ∧
    repoGet (repoDelete [("a", "a"), ("b", "b")] "a").1 "a" = none ∧
    ∀ o ∈ repoGetAll (repoDelete [("a", "a"), ("b", "b")] "a").1, id o ≠ "a" :=
  claim_C7 id [("a", "a"), ("b", "b")] "a" (by unfold WellKeyed; decide)

/-! ### Entity attribute dictionaries and update() (part2 app/models/base_model.py,
part3 app/persistence/repository.py InMemoryRepository.update, dict branch)

A Python object's attribute table is embedded as an association list from
attribute name to value. setattr replaces the value in place when the
attribute exists and appends a new attribute otherwise; hasattr is key
membership. BaseModel objects always carry an updated_at attribute (set
by BaseModel.__init__), modelled as a vtime value. -/

/-- A Python attribute value: string, integer or datetime payload. -/
inductive PyVal where
  | vstr (s : String)
  | vint (n : Int)
  | vtime (t : Nat)
deriving DecidableEq

/-- hasattr(obj, k). -/
def pyHasattr (o : List (String × PyVal)) (k : String) : Bool :=
  o.any (fun p => p.1 == k)

/-- getattr(obj, k), None when the attribute is absent. -/
def pyGetattr (o : List (String × PyVal)) (k : String) : Option PyVal :=
  (o.find? (fun p => p.1 == k)).map (fun p => p.2)

/-- setattr(obj, k, v): overwrite in place, append when new. -/
def pySetattr (o : List (String × PyVal)) (k : String) (v : PyVal) :
    List (String × PyVal) :=
  match o with
  | [] => [(k, v)]
  | p :: rest => if p.1 == k then (k, v) :: rest else p :: pySetattr rest k v

/-- BaseModel.save(): self.updated_at = datetime.now(), the clock value
passed in as now. -/
def baseModelSave (o : List (String × PyVal)) (now : Nat) : List (String × PyVal) :=
  pySetattr o "updated_at" (.vtime now)

/-- BaseModel.update(data): for each key in data, setattr only when
hasattr holds, then save(). -/
def baseModelUpdate (o : List (String × PyVal)) (data : List (String × PyVal))
    (now : Nat) : List (String × PyVal) :=
  baseModelSave
    (data.foldl (fun acc kv => if pyHasattr acc kv.1 then pySetattr acc kv.1 kv.2 else acc) o)
    now

/-- InMemoryRepository.update(obj_id, data), dict branch: setattr every
key of data on the stored object, with no hasattr filter and no save(). -/
def repoDictUpdate (o : List (String × PyVal)) (data : List (String × PyVal)) :
    List (String × PyVal) :=
  data.foldl (fun acc kv => pySetattr acc kv.1 kv.2) o


theorem pyGetattr_cons (p : String × PyVal) (rest : List (String × PyVal)) (k' : String) :
    pyGetattr (p :: rest) k' =
      if (p.1 == k') = true then some p.2 else pyGetattr rest k' := by
  unfold pyGetattr
  rw [List.find?_cons]
  cases hc : (p.1 == k') <;> simp [hc]

theorem pyGetattr_pySetattr_self (o : List (String × PyVal)) (k : String) (v : PyVal) :
    pyGetattr (pySetattr o k v) k = some v := by
  induction o with
  | nil => simp [pySetattr, pyGetattr_cons]
  | cons p rest ih =>
    unfold pySetattr
    by_cases h : p.1 = k
    · rw [if_pos (by simpa using h), pyGetattr_cons]
      simp
    · rw [if_neg (by simpa using h), pyGetattr_cons, if_neg (by simpa using h)]
      exact ih

theorem pyGetattr_pySetattr_ne (o : List (String × PyVal)) (k k' : String) (v : PyVal)
    (h : k' ≠ k) : pyGetattr (pySetattr o k v) k' = pyGetattr o k' := by
  have hk : ¬(k == k') = true := by
    simp only [beq_iff_eq]
    exact fun hh => h hh.symm
  induction o with
  | nil =>
    unfold pySetattr
    rw [pyGetattr_cons, if_neg hk]
  | cons p rest ih =>
    unfold pySetattr
    by_cases hp : p.1 = k
    · rw [if_pos (by simpa using hp), pyGetattr_cons, if_neg hk,
        pyGetattr_cons, if_neg (by simpa [hp] using hk)]
    · rw [if_neg (by simpa using hp), pyGetattr_cons, pyGetattr_cons, ih]

theorem pyHasattr_pySetattr (o : List (String × PyVal)) (k k' : String) (v : PyVal) :
    pyHasattr (pySetattr o k v) k' = (pyHasattr o k' || (k' == k)) := by
  induction o with
  | nil => simp [pySetattr, pyHasattr, Bool.or_comm, eq_comm]
  | cons p rest ih =>
    unfold pySetattr
    by_cases hp : p.1 = k
    · rw [if_pos (by simpa using hp)]
      unfold pyHasattr
      by_cases hkk : k = k'
      · subst hkk; simp [hp]
      · have hkk' : ¬k' = k := fun hh => hkk hh.symm
        simp [hp, hkk, hkk']
    · rw [if_neg (by simpa using hp)]
      unfold pyHasattr at ih ⊢
      simp only [List.any_cons, ih, Bool.or_assoc]

theorem pyHasattr_update_step_eq (o : List (String × PyVal)) (kv : String × PyVal)
    (k' : String) :
    pyHasattr (if pyHasattr o kv.1 then pySetattr o kv.1 kv.2 else o) k' =
      pyHasattr o k' := by
  by_cases h : pyHasattr o kv.1
  · rw [if_pos h, pyHasattr_pySetattr]
    by_cases hk : k' = kv.1
    · subst hk; simp [h]
    · simp [hk]
  · rw [if_neg h]

theorem baseModelFold_hasattr (data : List (String × PyVal)) (o : List (String × PyVal))
    (k' : String) :
    pyHasattr
      (data.foldl (fun a kv => if pyHasattr a kv.1 then pySetattr a kv.1 kv.2 else a) o)
      k' = pyHasattr o k' := by
  induction data generalizing o with
  | nil => rfl
  | cons kv rest ih =>
    rw [List.foldl_cons, ih, pyHasattr_update_step_eq]

theorem baseModelFold_getattr_not_mem (data : List (String × PyVal))
    (o : List (String × PyVal)) (k' : String) (h : k' ∉ data.map Prod.fst) :
    pyGetattr
      (data.foldl (fun a kv => if pyHasattr a kv.1 then pySetattr a kv.1 kv.2 else a) o)
      k' = pyGetattr o k' := by
  induction data generalizing o with
  | nil => rfl
  | cons kv rest ih =>
    rw [List.map_cons] at h
    have hk1 : k' ≠ kv.1 := fun hh => h (List.mem_cons.mpr (Or.inl hh))
    have hrest : k' ∉ rest.map Prod.fst := fun hh => h (List.mem_cons.mpr (Or.inr hh))
    rw [List.foldl_cons, ih _ hrest]
    by_cases hg : pyHasattr o kv.1
    · rw [if_pos hg, pyGetattr_pySetattr_ne _ _ _ _ hk1]
    · rw [if_neg hg]

theorem repoDictUpdate_hasattr_mono (data : List (String × PyVal))
    (o : List (String × PyVal)) (k' : String) (h : pyHasattr o k' = true) :
    pyHasattr (repoDictUpdate o data) k' = true := by
  induction data generalizing o with
  | nil => exact h
  | cons kv rest ih =>
    unfold repoDictUpdate at ih ⊢
    rw [List.foldl_cons]
    exact ih _ (by rw [pyHasattr_pySetattr, h, Bool.true_or])

theorem repoDictUpdate_hasattr_mem (data : List (String × PyVal))
    (o : List (String × PyVal)) (k' : String) (h : k' ∈ data.map Prod.fst) :
    pyHasattr (repoDictUpdate o data) k' = true := by
  induction data generalizing o with
  | nil => simp at h
  | cons kv rest ih =>
    rw [List.map_cons] at h
    unfold repoDictUpdate at ih ⊢
    rw [List.foldl_cons]
    rcases List.mem_cons.mp h with h1 | h1
    · have : pyHasattr (pySetattr o kv.1 kv.2) k' = true := by
        rw [pyHasattr_pySetattr, h1]
        simp
      exact repoDictUpdate_hasattr_mono rest _ k' this
    · exact ih _ h1

theorem repoDictUpdate_getattr_not_mem (data : List (String × PyVal))
    (o : List (String × PyVal)) (k' : String) (h : k' ∉ data.map Prod.fst) :
    pyGetattr (repoDictUpdate o data) k' = pyGetattr o k' := by
  induction data generalizing o with
  | nil => rfl
  | cons kv rest ih =>
    rw [List.map_cons] at h
    have hk1 : k' ≠ kv.1 := fun hh => h (List.mem_cons.mpr (Or.inl hh))
    have hrest : k' ∉ rest.map Prod.fst := fun hh => h (List.mem_cons.mpr (Or.inr hh))
    unfold repoDictUpdate at ih ⊢
    rw [List.foldl_cons, ih _ hrest, pyGetattr_pySetattr_ne _ _ _ _ hk1]

/-- Counterexample to claim C6 (closed): on the repository's dict-update
path, an unknown key is not ignored — setattr creates the attribute — and
updated_at does not advance. The object o0 has attributes id and
updated_at = 5 only; updating with the unknown key zzz adds the attribute
and leaves updated_at at 5. -/
theorem claim_C6_counterexample :
    pyHasattr (repoDictUpdate [("id", .vstr "x"), ("updated_at", .vtime 5)]
      [("zzz", .vint 1)]) "zzz" = true ∧
    pyGetattr (repoDictUpdate [("id", .vstr "x"), ("updated_at", .vtime 5)]
      [("zzz", .vint 1)]) "updated_at" = some (.vtime 5) := by
  constructor <;> rfl

/-- Claim C6 as amended: the entity's own update() mutates only existing
attributes (the attribute domain is unchanged), leaves attributes outside
the field-map untouched, and sets updated_at to the current clock; the
repository's dict-update path, by contrast, setattrs every key of the map
— creating attributes for unknown keys — and leaves every attribute
outside the map, updated_at included, unchanged. -/
theorem claim_C6_amended (o data : List (String × PyVal)) (now : Nat)
    (hts : pyHasattr o "updated_at" = true) :
    (∀ k', pyHasattr (baseModelUpdate o data now) k' = pyHasattr o k') ∧
    (∀ k', k' ∉ data.map Prod.fst → k' ≠ "updated_at" →
      pyGetattr (baseModelUpdate o data now) k' = pyGetattr o k') ∧
    pyGetattr (baseModelUpdate o data now) "updated_at" = some (.vtime now) ∧
    (∀ k', k' ∈ data.map Prod.fst →
      pyHasattr (repoDictUpdate o data) k' = true) ∧
    (∀ k', k' ∉ data.map Prod.fst →
      pyGetattr (repoDictUpdate o data) k' = pyGetattr o k') := by
  refine ⟨?_, ?_, ?_, ?_, ?_⟩
  · intro k'
    unfold baseModelUpdate baseModelSave
    rw [pyHasattr_pySetattr, baseModelFold_hasattr]
    by_cases hk : k' = "updated_at"
    · subst hk; simp [hts]
    · simp [hk]
  · intro k' hknot hkts
    unfold baseModelUpdate baseModelSave
    rw [pyGetattr_pySetattr_ne _ _ _ _ hkts]
    exact baseModelFold_getattr_not_mem data o k' hknot
  · unfold baseModelUpdate baseModelSave
    exact pyGetattr_pySetattr_self _ _ _
  · exact fun k' hk => repoDictUpdate_hasattr_mem data o k' hk
  · exact fun k' hk => repoDictUpdate_getattr_not_mem data o k' hk

/-- Witness for claim C6 as amended, at a concrete object and field map. -/
theorem claim_C6_amended_witness :
    (∀ k', pyHasattr (baseModelUpdate [("name", .vstr "a"), ("updated_at", .vtime 3)]
      [("name", .vstr "b"), ("zzz", .vint 7)] 9) k' =
      pyHasattr [("name", .vstr "a"), ("updated_at", .vtime 3)] k') ∧
    (∀ k', k' ∉ [("name", PyVal.vstr "b"), ("zzz", PyVal.vint 7)].map Prod.fst →
      k' ≠ "updated_at" →
      pyGetattr (baseModelUpdate [("name", .vstr "a"), ("updated_at", .vtime 3)]
        [("name", .vstr "b"), ("zzz", .vint 7)] 9) k' =
      pyGetattr [("name", .vstr "a"), ("updated_at", .vtime 3)] k') ∧
    pyGetattr (baseModelUpdate [("name", .vstr "a"), ("updated_at", .vtime 3)]
      [("name", .vstr "b"), ("zzz", .vint 7)] 9) "updated_at" = some (.vtime 9) ∧
    (∀ k', k' ∈ [("name", PyVal.vstr "b"), ("zzz", PyVal.vint 7)].map Prod.fst →
      pyHasattr (repoDictUpdate [("name", .vstr "a"), ("updated_at", .vtime 3)]
        [("name", .vstr "b"), ("zzz", .vint 7)]) k' = true) ∧
    (∀ k', k' ∉ [("name", PyVal.vstr "b"), ("zzz", PyVal.vint 7)].map Prod.fst →
      pyGetattr (repoDictUpdate [("name", .vstr "a"), ("updated_at", .vtime 3)]
        [("name", .vstr "b"), ("zzz", .vint 7)]) k' =
      pyGetattr [("name", .vstr "a"), ("updated_at", .vtime 3)] k') :=
  claim_C6_amended [("name", .vstr "a"), ("updated_at", .vtime 3)]
    [("name", .vstr "b"), ("zzz", .vint 7)] 9 rfl

/-! ### Python string helpers

str.strip, str.lower and str.title over the character list of a string,
and the email regular expression of the User model, re.fullmatch of
[A-Za-z0-9._%+-]+@[A-Za-z0-9.-]+\x2e[A-Za-z]\x7b2,7\x7d. -/

/-- Python default strip() whitespace characters. -/
def pyIsSpace (c : Char) : Bool :=
  c = ' ' || c = '\t' || c = '\n' || c = '\r' || c = '\x0b' || c = '\x0c'

/-- str.strip(): remove leading and trailing whitespace. -/
def pyStrip (s : List Char) : List Char :=
  ((s.dropWhile pyIsSpace).reverse.dropWhile pyIsSpace).reverse

/-- str.lower() on ASCII data. -/
def pyLower (s : String) : String :=
  String.mk (s.data.map Char.toLower)

/-- Worker for str.title(): a cased (alphabetic) character is uppercased
after a non-cased character and lowercased after a cased one. -/
def pyTitleGo : Bool → List Char → List Char
  | _, [] => []
  | prevCased, c :: cs =>
    (if c.isAlpha then (if prevCased then c.toLower else c.toUpper) else c)
      :: pyTitleGo c.isAlpha cs

/-- str.title() on ASCII data. -/
def pyTitle (s : List Char) : List Char :=
  pyTitleGo false s

/-- Character class [A-Za-z0-9._%+-] (local part of the email regex). -/
def emailLocalChar (c : Char) : Bool :=
  c.isAlphanum || c = '.' || c = '_' || c = '%' || c = '+' || c = '-'

/-- Character class [A-Za-z0-9.-] (domain part of the email regex). -/
def emailDomainChar (c : Char) : Bool :=
  c.isAlphanum || c = '.' || c = '-'

/-- re.fullmatch of the User email pattern. Since no character class of
the pattern contains the at sign, a match splits at the unique at sign;
since the top-level-domain segment is alphabetic only (no dot), the dot
preceding it is necessarily the last dot of the domain, so the match is
computed from the last dot. -/
def emailFormat (email : String) : Bool :=
  let cs := email.data
  let localPart := cs.takeWhile (fun c => c != '@')
  match cs.dropWhile (fun c => c != '@') with
  | '@' :: domainPart =>
    (!localPart.isEmpty) && localPart.all emailLocalChar &&
    (let revDomain := domainPart.reverse
     let tldRev := revDomain.takeWhile (fun c => c != '.')
     match revDomain.dropWhile (fun c => c != '.') with
     | '.' :: nameRev =>
       (!nameRev.isEmpty) && nameRev.all emailDomainChar &&
       tldRev.all Char.isAlpha && decide (2 ≤ tldRev.length) &&
       decide (tldRev.length ≤ 7)
     | _ => false)
  | _ => false

/-! ### User (part2 app/models/user.py)

User.__init__ validates name lengths, the is_admin flag type (a Bool in
the embedding, so the isinstance check cannot fail), the email format,
then checks uniqueness against the class-wide set existing_emails by
exact string membership, and finally registers the email in the set. -/

/-- The part2 User entity fields assigned by the constructor. -/
structure User2 where
  first_name : String
  last_name : String
  email : String
  is_admin : Bool
deriving DecidableEq

/-- User.__init__ (part2): returns the constructed user together with the
updated existing_emails set. -/
def userInit (existing_emails : List String)
    (first_name last_name email : String) (is_admin : Bool) :
    Except String (User2 × List String) :=
  if first_name.isEmpty || first_name.length > 50 then
    .error "Invalid first name: The maximum number of characters is 50."
  else if last_name.isEmpty || last_name.length > 50 then
    .error "Invalid last name: The maximum number of characters is 50."
  else if !emailFormat email then
    .error "Invalid email: must be a valid email address."
  else if existing_emails.contains email then
    .error "Email already exists: each user must have a unique email address."
  else
    .ok ({ first_name := first_name, last_name := last_name,
           email := email, is_admin := is_admin },
         existing_emails ++ [email])

/-- Result discriminator: True on the ok branch. -/
def isOkB : Except ε α → Bool
  | .ok _ => true
  | .error _ => false

/-- Counterexample to claim C1 (closed): with the email ana@example.com
already registered, constructing a User whose email is the case variant
Ana@example.com succeeds — the uniqueness check of User.__init__ compares
raw strings — even though both emails are equal after normalization, so
two Users with the same normalized email coexist. -/
theorem claim_C1_counterexample :
    isOkB (userInit ["ana@example.com"] "Ana" "Lee" "Ana@example.com" false) = true ∧
    pyLower "Ana@example.com" = pyLower "ana@example.com" := by
  constructor <;> rfl

/-- Claim C1 as amended: creating a User fails with the uniqueness error
exactly when an existing User has the very same email string (for
otherwise valid inputs); on success the raw email is added to the set of
existing emails. Case variants are not rejected (see the counterexample);
only part4 normalizes the email to lower case before storing. -/
theorem claim_C1_amended (existing : List String)
    (first_name last_name email : String) (is_admin : Bool)
    (hfn : (first_name.isEmpty || first_name.length > 50) = false)
    (hln : (last_name.isEmpty || last_name.length > 50) = false)
    (hfmt : emailFormat email = true) :
    (email ∈ existing →
      userInit existing first_name last_name email is_admin =
        .error "Email already exists: each user must have a unique email address.") ∧
    (email ∉ existing →
      userInit existing first_name last_name email is_admin =
        .ok ({ first_name := first_name, last_name := last_name,
               email := email, is_admin := is_admin },
             existing ++ [email])) := by
  unfold userInit
  rw [hfn, hln, hfmt]
  simp only [Bool.false_eq_true, if_false, Bool.not_true, if_true]
  constructor
  · intro hmem
    rw [if_pos (by simpa using hmem)]
  · intro hmem
    rw [if_neg (by simpa using hmem)]

/-- Witness for claim C1 as amended at concrete inputs. -/
theorem claim_C1_amended_witness :
    ("ana@example.com" ∈ ["ana@example.com"] →
      userInit ["ana@example.com"] "Ana" "Lee" "ana@example.com" false =
        .error "Email already exists: each user must have a unique email address.") ∧
    ("ana@example.com" ∉ ["ana@example.com"] →
      userInit ["ana@example.com"] "Ana" "Lee" "ana@example.com" false =
        .ok ({ first_name := "Ana", last_name := "Lee",
               email := "ana@example.com", is_admin := false },
             ["ana@example.com"] ++ ["ana@example.com"])) :=
  claim_C1_amended ["ana@example.com"] "Ana" "Lee" "ana@example.com" false rfl rfl rfl

/-! ### Domain entities shared by the part3/part4 facades

SQLAlchemy relationship fields are embedded through the stored foreign
keys: place.owner.id is owner_id, review.user.id is user_id. The uuid4
identifiers generated by BaseModel.__init__ are modelled as external
fresh-id inputs to the constructing operations. -/

/-- A stored user, as the facade state needs it. -/
structure UserR where
  id : String
  email : String
deriving DecidableEq

/-- A stored review (part3 app/models/review.py fields). -/
structure ReviewR where
  id : String
  text : String
  rating : Int
  user_id : String
  place_id : String
deriving DecidableEq

/-- A stored amenity (part4 app/models/amenity.py fields). -/
structure AmenityR where
  id : String
  name : String
deriving DecidableEq

/-- A stored place (part2/part4 app/models/place.py fields; owner is kept
by id, amenities and reviews are the relationship collections). -/
structure PlaceR where
  id : String
  title : String
  description : String
  price : ℚ
  latitude : ℚ
  longitude : ℚ
  owner_id : String
  max_person : Int
  amenities : List AmenityR
  reviews : List ReviewR
deriving DecidableEq

/-- The facade's four repositories (part3 app/services/facade.py
__init__), each embedded as an id-keyed table. -/
structure FacadeState where
  users : List (String × UserR)
  places : List (String × PlaceR)
  amenities : List (String × AmenityR)
  reviews : List (String × ReviewR)
deriving DecidableEq

/-! ### Review (part3 app/models/review.py and the create_review /
update_review facade operations of part2, part3 and part4)

The three iterations of create_review differ materially. part2 performs
no business-rule check at all. part3 contains the self-review and
duplicate checks, but its guard reads place.owner — an attribute the
part3 Place model does not have (its owner relationship is the backref
named user; only the owner_id column exists) — so the source raises an
AttributeError there for every resolved author and place, and the
duplicate check below it is unreachable. part4 names the relationship
owner (back_populates owned_places), so its checks run as written. Each
iteration is embedded separately. -/

/-- Review.__init__ (part3; part2 has the same text and rating checks,
with isinstance checks that the typed embedding discharges): text must be
non-empty (the length check of the source, not text or len(text) < 1, is
kept verbatim; no upper bound is checked), rating must lie in 1..5. -/
def reviewInit (text : String) (rating : Int) (user_id place_id : String)
    (rid : String) : Except String ReviewR :=
  if text.isEmpty || text.length < 1 then
    .error "Invalid review text: \x27text\x27 must be a non-empty string."
  else if rating < 1 || rating > 5 then
    .error "Invalid rating: The rating must be between 1 and 5."
  else
    .ok { id := rid, text := text, rating := rating,
          user_id := user_id, place_id := place_id }

/-- The review payload passed to create_review. -/
structure ReviewData where
  place_id : String
  text : String
  rating : Int
deriving DecidableEq

/-- HBnBFacade.create_review(review_data) (part2): resolve the author
(from the user_id key of the payload) and the place, construct the
Review and persist it. There is no self-review check and no duplicate
check in this iteration. rid stands for the uuid4 the Review constructor
generates. -/
def create_review2 (s : FacadeState) (user_id place_id text : String)
    (rating : Int) (rid : String) : Except String (ReviewR × FacadeState) :=
  match repoGet s.users user_id with
  | none => .error "User does not exist."
  | some _user =>
    match repoGet s.places place_id with
    | none => .error "Place does not exist."
    | some _place =>
      match reviewInit text rating user_id place_id rid with
      | .error e => .error e
      | .ok review =>
        .ok (review, { s with reviews := repoAdd s.reviews rid review })

/-- HBnBFacade.create_review(review_data, current_user) (part3): resolve
the author and the place, then evaluate place.owner.id — the part3 Place
has no owner attribute (models/place.py keeps owner_id and the user
backref only), so the source raises an AttributeError here on every call
that reaches this line; the self-review ValueError, the duplicate scan
and the persistence below it are unreachable. -/
def create_review3 (s : FacadeState) (d : ReviewData) (current_user : String)
    (_rid : String) : Except String (ReviewR × FacadeState) :=
  match repoGet s.users current_user with
  | none => .error "User does not exist."
  | some _user =>
    match repoGet s.places d.place_id with
    | none => .error "Place does not exist."
    | some _place =>
      .error "AttributeError: \x27Place\x27 object has no attribute \x27owner\x27"

/-- HBnBFacade.create_review(review_data, current_user) (part4): resolve
the author and the place, reject a review of an own place (place.owner
resolves through the back-populated relationship, so place.owner.id is
the stored owner_id), reject a duplicate review by scanning the reviews
filtered by place_id, construct the Review and persist it. This
iteration does not attach the review to the place object. rid stands for
the uuid4 the Review constructor generates. -/
def create_review4 (s : FacadeState) (d : ReviewData) (current_user : String)
    (rid : String) : Except String (ReviewR × FacadeState) :=
  match repoGet s.users current_user with
  | none => .error "User does not exist."
  | some _user =>
    match repoGet s.places d.place_id with
    | none => .error "Place does not exist."
    | some place =>
      if place.owner_id == current_user then
        .error "You cannot review your own place"
      else
        let existing_reviews := repoGetByAttr s.reviews (fun r => r.place_id) d.place_id
        if existing_reviews.any (fun r => r.user_id == current_user) then
          .error "You have already reviewed this place"
        else
          match reviewInit d.text d.rating current_user d.place_id rid with
          | .error e => .error e
          | .ok review =>
            .ok (review, { s with reviews := repoAdd s.reviews rid review })

/-- The partial review payload passed to update_review (text and rating
keys of the request body). -/
structure ReviewUpd where
  text : Option String
  rating : Option Int
deriving DecidableEq

/-- HBnBFacade.update_review(review_id, review_data) (part3): lookup
failure is rejected; when a rating is supplied it must lie in 1..5; the
repository then setattrs each supplied field — the text is not
re-validated. -/
def update_review (s : FacadeState) (review_id : String) (d : ReviewUpd) :
    Except String (ReviewR × FacadeState) :=
  match repoGet s.reviews review_id with
  | none => .error "Error ID: The requested ID does not exist."
  | some review =>
    if d.rating.any (fun rt => decide (rt < 1) || decide (rt > 5)) then
      .error "Rating must be between 1 and 5."
    else
      let review2 := { review with
        text := d.text.getD review.text,
        rating := d.rating.getD review.rating }
      .ok (review2, { s with reviews := repoAdd s.reviews review_id review2 })


/-- Sample user owning the sample place (witness data). -/
def anaUser : UserR :=
  { id := "u1", email := "ana@example.com" }

/-- Sample second user, not an owner (witness data). -/
def bobUser : UserR :=
  { id := "u2", email := "bob@example.com" }

/-- Sample place owned by anaUser (witness data). -/
def loftPlace : PlaceR :=
  { id := "p1", title := "Loft", description := "", price := 100,
    latitude := 40, longitude := -73, owner_id := "u1", max_person := 2,
    amenities := [], reviews := [] }

/-- Sample review by bobUser on loftPlace (witness data). -/
def bobReview : ReviewR :=
  { id := "r1", text := "Great", rating := 5, user_id := "u2", place_id := "p1" }

/-- Sample facade state: one owner, one reviewer, one place, one review. -/
def sampleState : FacadeState :=
  { users := [("u1", anaUser), ("u2", bobUser)],
    places := [("p1", loftPlace)],
    amenities := [],
    reviews := [("r1", bobReview)] }

/-- Claim C2, evaluation at the failing inputs (the claim states the
documented intent and the code deviates): in part2 a self-review — the
owner u1 of place p1 reviewing p1 — is constructed, persisted and
returned with no error at all; in part3 the same call fails, but with
the AttributeError from the place.owner dereference, not the
business-rule error its own docstring promises (Raises ValueError if
user tries to review own place); part4 implements the intended rule and
raises the business-rule error. -/
theorem claim_C2_code_eval :
    (∃ r s2, create_review2 sampleState "u1" "p1" "Great" 5 "r9" = .ok (r, s2) ∧
      r.user_id = loftPlace.owner_id ∧ r.place_id = "p1" ∧
      repoGet s2.reviews "r9" = some r) ∧
    create_review3 sampleState { place_id := "p1", text := "Great", rating := 5 }
      "u1" "r9" =
      .error "AttributeError: \x27Place\x27 object has no attribute \x27owner\x27" ∧
    create_review4 sampleState { place_id := "p1", text := "Great", rating := 5 }
      "u1" "r9" = .error "You cannot review your own place" := by
  exact ⟨⟨_, _, rfl, rfl, rfl, rfl⟩, rfl, rfl⟩

/-- Claim C3, evaluation at the failing inputs (the claim states the
documented intent and the code deviates): in part2 a second review by u2
on place p1 — r1 by u2 on p1 is already stored — is persisted with no
error, so two reviews by the same user on the same place coexist; in
part3 the duplicate check is unreachable behind the place.owner
AttributeError, so the call fails with that error instead of the
business-rule error; part4 implements the intended rule and raises the
duplicate-review error. -/
theorem claim_C3_code_eval :
    (∃ r s2, create_review2 sampleState "u2" "p1" "Again" 4 "r9" = .ok (r, s2) ∧
      repoGet s2.reviews "r1" = some bobReview ∧
      repoGet s2.reviews "r9" = some r ∧
      r.user_id = bobReview.user_id ∧ r.place_id = bobReview.place_id) ∧
    create_review3 sampleState { place_id := "p1", text := "Again", rating := 4 }
      "u2" "r9" =
      .error "AttributeError: \x27Place\x27 object has no attribute \x27owner\x27" ∧
    create_review4 sampleState { place_id := "p1", text := "Again", rating := 4 }
      "u2" "r9" = .error "You have already reviewed this place" := by
  exact ⟨⟨_, _, rfl, rfl, rfl, rfl, rfl⟩, rfl, rfl⟩

set_option maxRecDepth 4096 in
/-- Claim C4, evaluation at the failing inputs (the claim is right and
the code is wrong): Review.__init__ accepts a text of 301 characters —
its docstring lists the 300-character cap among the validation rules, but
the check only rejects empty text — and update_review accepts an update
that empties the text, because only a supplied rating is re-validated. -/
theorem claim_C4_code_eval :
    isOkB (reviewInit (String.mk (List.replicate 301 'a')) 3 "u2" "p1" "r9") = true ∧
    (∃ r s2, update_review sampleState "r1" { text := some "", rating := none } =
      .ok (r, s2) ∧ r.text = "") := by
  constructor
  · rfl
  · exact ⟨_, _, rfl, rfl⟩

/-! ### Place (part2 app/models/place.py, part4 app/services/facade.py)

The owner isinstance check of the constructors cannot fail in the typed
embedding, so it does not appear. Prices and coordinates are rationals
(Python floats used only in order comparisons). -/

/-- Place.__init__ (part2): validates title, price, latitude, longitude
and max_person in source order, then assigns the fields with empty
reviews and amenities collections. pid stands for the uuid4 generated by
BaseModel.__init__. -/
def placeInit (title description : String) (price latitude longitude : ℚ)
    (owner : UserR) (max_person : Int) (pid : String) : Except String PlaceR :=
  if title.isEmpty || title.length > 100 then
    .error "Invalid title: must be a non-empty string up to 100 characters."
  else if price < 0 then
    .error "Invalid price: must be a number greater than or equal to 0."
  else if latitude < -90 || latitude > 90 then
    .error "Invalid latitude: must be a float between -90 and 90 degrees."
  else if longitude < -180 || longitude > 180 then
    .error "Invalid longitude: must be a float between -180 and 180 degrees."
  else if max_person < 1 then
    .error "Invalid capacity: must be at least 1 person."
  else
    .ok { id := pid, title := title, description := description,
          price := price, latitude := latitude, longitude := longitude,
          owner_id := owner.id, max_person := max_person,
          amenities := [], reviews := [] }

/-- A Python dict of strings (amenity entries in object format). -/
def dictLookup (m : List (String × String)) (k : String) : Option String :=
  (m.find? (fun p => p.1 == k)).map (fun p => p.2)

/-- The partial field map passed to update_place; each field is present
(some) or absent from the dict (none). Amenity entries of the update path
are dicts, accessed as amenity[id-key]. -/
structure PlaceUpd where
  title : Option String
  description : Option String
  price : Option ℚ
  latitude : Option ℚ
  longitude : Option ℚ
  max_person : Option Int
  amenities : Option (List (List (String × String)))
deriving DecidableEq

/-- The amenity-replacement loop of update_place: amenity[id-key] is read
(a KeyError propagates when absent, there is no try block here), the
repository is queried, and misses are skipped. -/
def resolveUpdAmenities (store : List (String × AmenityR)) :
    List (List (String × String)) → Except String (List AmenityR)
  | [] => .ok []
  | m :: rest =>
    match dictLookup m "id" with
    | none => .error "KeyError: \x27id\x27"
    | some amenity_id =>
      match repoGet store amenity_id with
      | some a => (resolveUpdAmenities store rest).map (fun l => a :: l)
      | none => resolveUpdAmenities store rest

/-- HBnBFacade.update_place(place_id, place_data) (part4): lookup failure
is rejected; each supplied numeric or geographic field is re-validated
with the creation bounds before any field is assigned; the scalar fields
are then overwritten, a supplied amenities list replaces the association
set wholesale, and the place is stored back. -/
def update_place (s : FacadeState) (place_id : String) (d : PlaceUpd) :
    Except String (PlaceR × FacadeState) :=
  match repoGet s.places place_id with
  | none => .error "Error ID: The requested ID does not exist."
  | some place =>
    if d.price.any (fun p => decide (p < 0)) then
      .error "Price must be a non-negative number."
    else if d.max_person.any (fun m => decide (m < 1)) then
      .error "Max person must be greater than 0."
    else if d.latitude.any (fun la => !(decide (-90 ≤ la) && decide (la ≤ 90))) then
      .error "Latitude must be between -90 and 90 degrees."
    else if d.longitude.any (fun lo => !(decide (-180 ≤ lo) && decide (lo ≤ 180))) then
      .error "Longitude must be between -180 and 180 degrees."
    else
      let place1 := { place with
        title := d.title.getD place.title,
        description := d.description.getD place.description,
        price := d.price.getD place.price,
        latitude := d.latitude.getD place.latitude,
        longitude := d.longitude.getD place.longitude,
        max_person := d.max_person.getD place.max_person }
      match d.amenities with
      | none =>
        .ok (place1, { s with places := repoAdd s.places place_id place1 })
      | some entries =>
        match resolveUpdAmenities s.amenities entries with
        | .error e => .error e
        | .ok ams =>
          let place2 := { place1 with amenities := ams }
          .ok (place2, { s with places := repoAdd s.places place_id place2 })

/-- The caller of update_place keeps its previous state when the call
raises (transport layer turns the error into a client response). -/
def update_place_run (s : FacadeState) (place_id : String) (d : PlaceUpd) :
    FacadeState :=
  match update_place s place_id d with
  | .ok (_, s2) => s2
  | .error _ => s

/-- Claim C5: a price, latitude, longitude or max_person bound violation
fails Place construction; the same violation in a partial update fails
update_place with a field validation error, and because every bound check
precedes every field assignment, the stored place — every field of it —
is unchanged after the failed call. -/
theorem claim_C5 :
    (∀ (title description : String) (price la lo : ℚ) (owner : UserR)
      (mp : Int) (pid : String),
      (price < 0 ∨ la < -90 ∨ la > 90 ∨ lo < -180 ∨ lo > 180 ∨ mp < 1) →
      isOkB (placeInit title description price la lo owner mp pid) = false) ∧
    (∀ (s : FacadeState) (place_id : String) (d : PlaceUpd) (place : PlaceR),
      repoGet s.places place_id = some place →
      ((∃ p, d.price = some p ∧ p < 0) ∨
       (∃ m, d.max_person = some m ∧ m < 1) ∨
       (∃ la, d.latitude = some la ∧ (la < -90 ∨ la > 90)) ∨
       (∃ lo, d.longitude = some lo ∧ (lo < -180 ∨ lo > 180))) →
      isOkB (update_place s place_id d) = false ∧
      update_place_run s place_id d = s) := by
  constructor
  · intro title description price la lo owner mp pid h
    have herr : ∃ e, placeInit title description price la lo owner mp pid = .error e := by
      unfold placeInit
      by_cases t1 : (title.isEmpty || decide (title.length > 100)) = true
      · rw [if_pos t1]; exact ⟨_, rfl⟩
      · rw [if_neg t1]
        by_cases t2 : price < 0
        · rw [if_pos t2]; exact ⟨_, rfl⟩
        · rw [if_neg t2]
          by_cases t3 : (decide (la < -90) || decide (la > 90)) = true
          · rw [if_pos t3]; exact ⟨_, rfl⟩
          · rw [if_neg t3]
            by_cases t4 : (decide (lo < -180) || decide (lo > 180)) = true
            · rw [if_pos t4]; exact ⟨_, rfl⟩
            · rw [if_neg t4]
              by_cases t5 : mp < 1
              · rw [if_pos t5]; exact ⟨_, rfl⟩
              · exfalso
                rcases h with h | h | h | h | h | h
                · exact t2 h
                · exact t3 (by simp [h])
                · exact t3 (by simp [h])
                · exact t4 (by simp [h])
                · exact t4 (by simp [h])
                · exact t5 h
    rcases herr with ⟨e, he⟩
    rw [he]; rfl
  · intro s place_id d place hpl h
    have herr : ∃ e, update_place s place_id d = .error e := by
      unfold update_place
      rw [hpl]
      by_cases g1 : d.price.any (fun p => decide (p < 0)) = true
      · exact ⟨"Price must be a non-negative number.", by simp [g1]⟩
      · by_cases g2 : d.max_person.any (fun m => decide (m < 1)) = true
        · exact ⟨"Max person must be greater than 0.", by simp [g1, g2]⟩
        · by_cases g3 :
            d.latitude.any (fun la => !(decide (-90 ≤ la) && decide (la ≤ 90))) = true
          · exact ⟨"Latitude must be between -90 and 90 degrees.",
              by simp only [g1, g2, g3, Bool.false_eq_true, if_false, if_true]⟩
          · by_cases g4 :
              d.longitude.any (fun lo => !(decide (-180 ≤ lo) && decide (lo ≤ 180))) = true
            · exact ⟨"Longitude must be between -180 and 180 degrees.",
                by simp only [g1, g2, g3, g4, Bool.false_eq_true, if_false, if_true]⟩
            · exfalso
              rcases h with ⟨p, hp, hv⟩ | ⟨m, hm, hv⟩ | ⟨la, hla, hv⟩ | ⟨lo, hlo, hv⟩
              · exact g1 (by rw [hp]; simpa using hv)
              · exact g2 (by rw [hm]; simpa using hv)
              · refine g3 ?_
                rw [hla]
                simp only [Option.any_some, Bool.not_eq_true]
                rcases hv with hv | hv <;> simp [not_and_or] <;> [left; right] <;> linarith
              · refine g4 ?_
                rw [hlo]
                simp only [Option.any_some, Bool.not_eq_true]
                rcases hv with hv | hv <;> simp [not_and_or] <;> [left; right] <;> linarith
    rcases herr with ⟨e, he⟩
    constructor
    · rw [he]; rfl
    · unfold update_place_run
      rw [he]

/-- Witness for claim C5: a valid construction attempt with price -5
fails, and the spec scenario — updating the stored place price to -5 —
fails and leaves the facade state unchanged. -/
theorem claim_C5_witness :
    isOkB (placeInit "Loft" "" (-5) 40 (-73) anaUser 2 "p9") = false ∧
    (isOkB (update_place sampleState "p1"
      { title := none, description := none, price := some (-5),
        latitude := none, longitude := none, max_person := none,
        amenities := none }) = false ∧
     update_place_run sampleState "p1"
      { title := none, description := none, price := some (-5),
        latitude := none, longitude := none, max_person := none,
        amenities := none } = sampleState) :=
  ⟨claim_C5.1 "Loft" "" (-5) 40 (-73) anaUser 2 "p9" (Or.inl (by norm_num)),
   claim_C5.2 sampleState "p1"
    { title := none, description := none, price := some (-5),
      latitude := none, longitude := none, max_person := none,
      amenities := none } loftPlace rfl (Or.inl ⟨-5, rfl, by norm_num⟩)⟩

/-! ### create_place (part4 app/services/facade.py) and part4 Place model -/

/-- Place.__init__ (part4): same bounds as part2 with the part4 error
messages; max_person is a typed integer here, so the isinstance branch of
the source cannot fail. -/
def placeInit4 (title description : String) (price latitude longitude : ℚ)
    (owner : UserR) (max_person : Int) (pid : String) : Except String PlaceR :=
  if title.isEmpty || title.length > 100 then
    .error "Invalid title: must be a non-empty string up to 100 characters."
  else if price < 0 then
    .error "Invalid price: must be >= 0."
  else if decide (latitude < -90) || decide (latitude > 90) then
    .error "Invalid latitude: must be between -90 and 90."
  else if decide (longitude < -180) || decide (longitude > 180) then
    .error "Invalid longitude: must be between -180 and 180."
  else if max_person < 1 then
    .error "max_person must be a positive integer."
  else
    .ok { id := pid, title := title, description := description,
          price := price, latitude := latitude, longitude := longitude,
          owner_id := owner.id, max_person := max_person,
          amenities := [], reviews := [] }

/-- An entry of the amenities list passed to create_place: either a plain
string id or an object (dict) carrying an id key. -/
inductive AmenityEntry where
  | strId (s : String)
  | dictEntry (m : List (String × String))
deriving DecidableEq

/-- The id an entry resolves to: the string itself, or the id key of the
dict (None when the dict lacks it). -/
def entryId : AmenityEntry → Option String
  | .strId aid => some aid
  | .dictEntry m => dictLookup m "id"

/-- The amenity loop of create_place (part4): extract the id (a dict
without an id key raises a KeyError, outside the try block), query the
repository inside try, keep hits and skip misses. -/
def resolveEntries (store : List (String × AmenityR)) :
    List AmenityEntry → Except String (List AmenityR)
  | [] => .ok []
  | .strId aid :: rest =>
    (match repoGet store aid with
     | some a => (resolveEntries store rest).map (fun l => a :: l)
     | none => resolveEntries store rest)
  | .dictEntry m :: rest =>
    match dictLookup m "id" with
    | none => .error "KeyError: \x27id\x27"
    | some aid =>
      (match repoGet store aid with
       | some a => (resolveEntries store rest).map (fun l => a :: l)
       | none => resolveEntries store rest)

/-- The field map passed to create_place (part4). -/
structure PlaceData where
  title : Option String
  description : Option String
  price : Option ℚ
  latitude : Option ℚ
  longitude : Option ℚ
  max_person : Option Int
  amenities : Option (List AmenityEntry)
deriving DecidableEq

/-- HBnBFacade.create_place(place_data, current_user) (part4): required
fields, bound checks, owner resolution, Place construction (the
description is read with a plain dict access, so its absence raises a
KeyError), amenity-id resolution with skipped misses, and persistence.
pid stands for the uuid4 generated by BaseModel.__init__. -/
def create_place (s : FacadeState) (d : PlaceData) (current_user : String)
    (pid : String) : Except String (PlaceR × FacadeState) :=
  match d.title with
  | none => .error "Missing required field: title"
  | some title =>
  match d.price with
  | none => .error "Missing required field: price"
  | some price =>
  match d.latitude with
  | none => .error "Missing required field: latitude"
  | some latitude =>
  match d.longitude with
  | none => .error "Missing required field: longitude"
  | some longitude =>
  match d.max_person with
  | none => .error "Missing required field: max_person"
  | some max_person =>
  if price < 0 then .error "Price must be a non-negative number."
  else if max_person < 1 then .error "Max person must be greater than 0."
  else if !(decide (-90 ≤ latitude) && decide (latitude ≤ 90)) then
    .error "Latitude must be between -90 and 90 degrees."
  else if !(decide (-180 ≤ longitude) && decide (longitude ≤ 180)) then
    .error "Longitude must be between -180 and 180 degrees."
  else
  match repoGet s.users current_user with
  | none => .error "Owner not found."
  | some owner =>
  match d.description with
  | none => .error "KeyError: \x27description\x27"
  | some description =>
  match placeInit4 title description price latitude longitude owner max_person pid with
  | .error e => .error e
  | .ok place =>
  match (match d.amenities with
         | none => Except.ok []
         | some entries => resolveEntries s.amenities entries) with
  | .error e => .error e
  | .ok ams =>
    let place2 := { place with amenities := ams }
    .ok (place2, { s with places := repoAdd s.places pid place2 })

theorem resolveEntries_ok (store : List (String × AmenityR))
    (entries : List AmenityEntry)
    (h : ∀ e ∈ entries, (entryId e).isSome = true) :
    resolveEntries store entries =
      .ok (entries.filterMap (fun e => (entryId e).bind (fun aid => repoGet store aid))) := by
  induction entries with
  | nil => rfl
  | cons e rest ih =>
    have hrest : ∀ x ∈ rest, (entryId x).isSome = true :=
      fun x hx => h x (List.mem_cons.mpr (Or.inr hx))
    have ihr := ih hrest
    cases e with
    | strId aid =>
      unfold resolveEntries
      rw [List.filterMap_cons]
      cases hg : repoGet store aid with
      | some a => simp [entryId, hg, ihr, Except.map]
      | none => simp [entryId, hg, ihr]
    | dictEntry m =>
      have hsome : (dictLookup m "id").isSome = true := by
        simpa [entryId] using h _ (List.mem_cons_self _ _)
      rcases Option.isSome_iff_exists.mp hsome with ⟨aid, haid⟩
      unfold resolveEntries
      rw [haid, List.filterMap_cons]
      cases hg : repoGet store aid with
      | some a => simp [entryId, haid, hg, ihr, Except.map]
      | none => simp [entryId, haid, hg, ihr]

/-- Concrete state for claim C8: one user, no amenities. -/
def c8State : FacadeState :=
  { users := [("u1", anaUser)], places := [], amenities := [], reviews := [] }

/-- Concrete payload for claim C8: a valid place whose amenities list
carries the single name wifi (no amenity with that id exists). -/
def c8Data : PlaceData :=
  { title := some "Loft", description := some "", price := some 100,
    latitude := some 40, longitude := some (-73), max_person := some 2,
    amenities := some [.strId "wifi"] }

/-- Counterexample to claim C8 (closed): create_place does not
find-or-create an amenity from a name. With an empty amenity table and
the entry wifi, the call succeeds but attaches no amenity and creates
none — the amenity table of the resulting state is still empty — whereas
the claim requires the entry to be resolved by find-or-create on the
normalized name. -/
theorem claim_C8_counterexample :
    (create_place c8State c8Data "u1" "p9").toOption.map
      (fun r => (r.1.amenities, r.2.amenities)) = some ([], []) := by
  rfl

/-- Claim C8 as amended: inside create_place every amenity entry is
resolved only as an existing Amenity identifier (a plain id string or a
dict carrying an id key); entries whose id matches no stored amenity are
skipped, the creation still succeeds and attaches exactly the resolvable
amenities, and the amenity table is left unchanged — no amenity is
created here (name-based find-or-create happens in the transport layer
before this call). -/
theorem claim_C8_amended (s : FacadeState) (d : PlaceData)
    (current_user pid : String) (owner : UserR)
    (title description : String) (price latitude longitude : ℚ)
    (max_person : Int) (entries : List AmenityEntry)
    (ht : d.title = some title) (hd : d.description = some description)
    (hpr : d.price = some price) (hla : d.latitude = some latitude)
    (hlo : d.longitude = some longitude) (hmp : d.max_person = some max_person)
    (ha : d.amenities = some entries)
    (htitle : (title.isEmpty || decide (title.length > 100)) = false)
    (hprice : ¬price < 0) (hmperson : ¬max_person < 1)
    (hlat : -90 ≤ latitude ∧ latitude ≤ 90)
    (hlong : -180 ≤ longitude ∧ longitude ≤ 180)
    (howner : repoGet s.users current_user = some owner)
    (hids : ∀ e ∈ entries, (entryId e).isSome = true) :
    ∃ place s2, create_place s d current_user pid = .ok (place, s2) ∧
      place.amenities =
        entries.filterMap (fun e => (entryId e).bind (fun aid => repoGet s.amenities aid)) ∧
      s2.amenities = s.amenities := by
  have hinit : placeInit4 title description price latitude longitude owner max_person pid =
      .ok { id := pid, title := title, description := description,
            price := price, latitude := latitude, longitude := longitude,
            owner_id := owner.id, max_person := max_person,
            amenities := [], reviews := [] } := by
    unfold placeInit4
    rw [if_neg (by simp [htitle]), if_neg hprice,
      if_neg (by simp only [Bool.or_eq_true, decide_eq_true_eq, not_or, not_lt]
                 exact ⟨hlat.1, hlat.2⟩),
      if_neg (by simp only [Bool.or_eq_true, decide_eq_true_eq, not_or, not_lt]
                 exact ⟨hlong.1, hlong.2⟩),
      if_neg hmperson]
  unfold create_place
  rw [ht, hpr, hla, hlo, hmp, hd, howner, ha]
  dsimp only
  rw [if_neg hprice, if_neg hmperson,
    if_neg (by simp [hlat.1, hlat.2]),
    if_neg (by simp [hlong.1, hlong.2])]
  rw [hinit, resolveEntries_ok s.amenities entries hids]
  exact ⟨_, _, rfl, rfl, rfl⟩

/-- Witness for claim C8 as amended: one stored amenity a1; the entries
list holds a resolvable id, an unresolvable id and a dict entry; the
place is created with exactly the two resolvable amenities attached and
the amenity table unchanged. -/
theorem claim_C8_amended_witness :
    ∃ place s2, create_place
      { users := [("u1", anaUser)], places := [],
        amenities := [("a1", { id := "a1", name := "Wifi" })], reviews := [] }
      { title := some "Loft", description := some "", price := some 100,
        latitude := some 40, longitude := some (-73), max_person := some 2,
        amenities := some [.strId "a1", .strId "nope", .dictEntry [("id", "a1")]] }
      "u1" "p9" = .ok (place, s2) ∧
      place.amenities =
        [AmenityEntry.strId "a1", .strId "nope", .dictEntry [("id", "a1")]].filterMap
          (fun e => (entryId e).bind
            (fun aid => repoGet [("a1", { id := "a1", name := "Wifi" })] aid)) ∧
      s2.amenities = [("a1", { id := "a1", name := "Wifi" })] :=
  claim_C8_amended
    { users := [("u1", anaUser)], places := [],
      amenities := [("a1", { id := "a1", name := "Wifi" })], reviews := [] }
    { title := some "Loft", description := some "", price := some 100,
      latitude := some 40, longitude := some (-73), max_person := some 2,
      amenities := some [.strId "a1", .strId "nope", .dictEntry [("id", "a1")]] }
    "u1" "p9" anaUser "Loft" "" 100 40 (-73) 2
    [.strId "a1", .strId "nope", .dictEntry [("id", "a1")]]
    rfl rfl rfl rfl rfl rfl rfl rfl (by norm_num) (by norm_num)
    (by norm_num) (by norm_num) rfl (by decide)

/-! ### Amenity (part4 app/models/amenity.py, part3/part4
get_amenity_by_name in app/services/facade.py) -/

/-- name.strip().title(): the normalization applied once, at write time,
and again to lookup keys. -/
def normalizeAmenityName (s : String) : String :=
  String.mk (pyTitle (pyStrip s.data))

/-- Amenity.__init__ (part4): the isinstance check cannot fail in the
typed embedding; the name must be non-empty, non-blank and at most 50
characters after stripping, and is stored stripped and title-cased.
aid stands for the uuid4 generated by BaseModel.__init__. -/
def amenityInit (name : String) (aid : String) : Except String AmenityR :=
  if name.isEmpty || (pyStrip name.data).length == 0 ||
      (pyStrip name.data).length > 50 then
    .error "Invalid Amenity: \x27name\x27 is required and must be a string with a maximum of 50 characters."
  else
    .ok { id := aid, name := normalizeAmenityName name }

/-- HBnBFacade.get_amenity_by_name(name) (part3/part4): an exact-match
attribute scan on the stored name, with the lookup key normalized by
strip().title() first. -/
def get_amenity_by_name (store : List (String × AmenityR)) (name : String) :
    List AmenityR :=
  repoGetByAttr store (fun a => a.name) (normalizeAmenityName name)

/-- Claim C9: two valid input strings that agree after trimming and
canonical (title) case normalization construct Amenities storing the very
same name, and name lookup normalizes its key the same way, so both
inputs resolve to the same logical amenity on every store even though the
store compares names by exact match. -/
theorem claim_C9 (s1 s2 aid1 aid2 : String)
    (h : normalizeAmenityName s1 = normalizeAmenityName s2)
    (v1 : (s1.isEmpty || (pyStrip s1.data).length == 0 ||
      (pyStrip s1.data).length > 50) = false)
    (v2 : (s2.isEmpty || (pyStrip s2.data).length == 0 ||
      (pyStrip s2.data).length > 50) = false) :
    (∃ a1 a2, amenityInit s1 aid1 = .ok a1 ∧ amenityInit s2 aid2 = .ok a2 ∧
      a1.name = a2.name) ∧
    (∀ store, get_amenity_by_name store s1 = get_amenity_by_name store s2) := by
  constructor
  · refine ⟨{ id := aid1, name := normalizeAmenityName s1 },
      { id := aid2, name := normalizeAmenityName s2 }, ?_, ?_, ?_⟩
    · unfold amenityInit
      rw [if_neg (by simp [v1])]
    · unfold amenityInit
      rw [if_neg (by simp [v2])]
    · simpa using h
  · intro store
    unfold get_amenity_by_name
    rw [h]

/-- Witness for claim C9: wifi and WiFi both normalize to Wifi, construct
amenities with the same stored name, and retrieve the same stored amenity
from a concrete table. -/
theorem claim_C9_witness :
    (∃ a1 a2, amenityInit "wifi" "x1" = .ok a1 ∧ amenityInit "WiFi" "x2" = .ok a2 ∧
      a1.name = a2.name) ∧
    (∀ store, get_amenity_by_name store "wifi" = get_amenity_by_name store "WiFi") :=
  claim_C9 "wifi" "WiFi" "x1" "x2" rfl rfl rfl

/-! ### get_all_users and get_all_amenities (part3 app/services/facade.py)

Both methods wrap the repository retrieval in try/except and return the
empty list on any exception. The retrieval outcome of the backing store
is the Except-valued input. -/

/-- HBnBFacade.get_all_users: the try/except Exception branch returns []. -/
def get_all_users (retrieval : Except String (List UserR)) : List UserR :=
  match retrieval with
  | .ok l => l
  | .error _ => []

/-- HBnBFacade.get_all_amenities: the try/except Exception branch
returns []. -/
def get_all_amenities (retrieval : Except String (List AmenityR)) : List AmenityR :=
  match retrieval with
  | .ok l => l
  | .error _ => []

/-- Claim C10: get_all_users and get_all_amenities never propagate an
error: a successful retrieval is returned as is, and a raising retrieval
yields the empty list. -/
theorem claim_C10 (ru : Except String (List UserR))
    (ra : Except String (List AmenityR)) :
    (∀ l, ru = .ok l → get_all_users ru = l) ∧
    (∀ e, ru = .error e → get_all_users ru = []) ∧
    (∀ l, ra = .ok l → get_all_amenities ra = l) ∧
    (∀ e, ra = .error e → get_all_amenities ra = []) := by
  refine ⟨?_, ?_, ?_, ?_⟩
  · intro l hl; rw [hl]; rfl
  · intro e he; rw [he]; rfl
  · intro l hl; rw [hl]; rfl
  · intro e he; rw [he]; rfl

/-- Witness for claim C10: a stored user list is returned unchanged and a
raising amenity retrieval yields the empty list. -/
theorem claim_C10_witness :
    get_all_users (Except.ok [anaUser]) = [anaUser] ∧
    get_all_amenities (Except.error "db down") = [] :=
  ⟨(claim_C10 (Except.ok [anaUser]) (Except.error "db down")).1 [anaUser] rfl,
   (claim_C10 (Except.ok [anaUser]) (Except.error "db down")).2.2.2 "db down" rfl⟩

end HBnB
